import Mathlib

/-!
# Verification of the workshop-builder job/event/SSE core

Shallow embedding of the asynchronous job-orchestration core of the
`workshop-builder` repository:

* `server/services/jobs.py`   — directory bookkeeping, pub/sub publish,
  cancellation flags (Redis-backed, modelled as an explicit state record);
* `server/services/events.py` — the `JobEmitter` façade;
* `server/services/crewai_pipeline.py` — the `run_job` pipeline (its
  event/cancellation/artifact behaviour; the watsonx LLM call is external
  and its result is used only for the outline text, which is never read
  again, so it does not affect events or artifacts);
* `workers/worker.py`         — the RQ job entrypoint `run_job_worker`;
* `server/routers/generate.py` — the `/generate/start` endpoint, the SSE
  generator `sse_event_gen`, and the `/generate/cancel` endpoint;
* `server/routers/exports.py` — the artifact listing endpoint.

Machine-level side effects (Redis, the filesystem, the RQ queue) are
modelled by explicit state values threaded through the definitions.
-/

/-- JSON-like values, the payloads carried by events and HTTP bodies. -/
inductive JVal where
  | jnull
  | jbool (b : Bool)
  | jint (n : Int)
  | jstr (s : String)
  | jarr (xs : List JVal)
  | jobj (fields : List (String × JVal))

open JVal

/-- Field lookup on a JSON object (`d.get(k)` / `d[k]` on a dict);
`none` for non-objects and missing keys. -/
def jGet : JVal → String → Option JVal
  | jobj fields, k => fields.lookup k
  | _, _ => none

/-- Python truthiness of a JSON value (`if not x` tests). -/
def jTruthy : JVal → Bool
  | jnull => false
  | jbool b => b
  | jint n => n != 0
  | jstr s => s ≠ ""
  | jarr xs => !xs.isEmpty
  | jobj fields => !fields.isEmpty

/-- An event envelope as published on a job channel:
`json.dumps({"event": event, "data": data})` in `publish_event`
(`server/services/jobs.py`). -/
structure EventMsg where
  event : String
  data : JVal

/-- The Redis channel for a job's events: `f"job:{job_id}:events"`. -/
def jobChannel (jobId : String) : String :=
  "job:" ++ jobId ++ ":events"

/-- The Redis key of a job's cancellation flag: `f"job:{job_id}:cancel"`. -/
def cancelKey (jobId : String) : String :=
  "job:" ++ jobId ++ ":cancel"

/-- Redis state: the keyed store (key, ttl seconds, value) written by
`setex`, newest binding first, and the sequence of published pub/sub
messages (channel, envelope) in publish order. -/
structure RedisState where
  store : List (String × Nat × String)
  published : List (String × EventMsg)

/-- `r.setex(key, ttl, value)`: bind `key`; the newest binding shadows
older ones. -/
def RedisState.setex (st : RedisState) (key : String) (ttl : Nat)
    (val : String) : RedisState :=
  { st with store := (key, ttl, val) :: st.store }

/-- `r.get(key)`: the current binding of `key`, if any. -/
def RedisState.getKey (st : RedisState) (key : String) :
    Option (Nat × String) :=
  st.store.lookup key

/-- `publish_event(cfg, job_id, event, data)` (`server/services/jobs.py`):
publish one envelope on the job's channel. -/
def publish_event (st : RedisState) (jobId : String) (event : String)
    (data : JVal) : RedisState :=
  { st with published := st.published ++ [(jobChannel jobId, ⟨event, data⟩)] }

/-- `set_cancelled(cfg, job_id)` (`server/services/jobs.py`), also inlined
in the `/generate/cancel` endpoint: `r.setex(f"job:{job_id}:cancel", 600, b"1")`. -/
def set_cancelled (st : RedisState) (jobId : String) : RedisState :=
  st.setex (cancelKey jobId) 600 "1"

/-- `is_cancelled(cfg, job_id)` (`server/services/jobs.py`):
`r.get(f"job:{job_id}:cancel") is not None`.  A pure read: it does not
modify the store (the flag is read, never cleared). -/
def is_cancelled (st : RedisState) (jobId : String) : Bool :=
  (st.getKey (cancelKey jobId)).isSome

namespace JobEmitter

/-- `JobEmitter.progress(pct, msg)` (`server/services/events.py`):
publishes `("progress", {"pct": int(pct), "msg": msg})`.  The argument is
already an `int` by annotation; `int(pct)` is the identity on integers,
and no range clamping to `[0,100]` is performed. -/
def progress (pct : Int) (msg : String) : EventMsg :=
  ⟨"progress", jobj [("pct", jint pct), ("msg", jstr msg)]⟩

/-- `JobEmitter.log(level, msg)`: `("log", {"level": level, "msg": msg})`. -/
def log (level msg : String) : EventMsg :=
  ⟨"log", jobj [("level", jstr level), ("msg", jstr msg)]⟩

/-- `JobEmitter.artifact(artifact)`: the artifact dict is passed through
unchanged. -/
def artifact (a : JVal) : EventMsg :=
  ⟨"artifact", a⟩

/-- `JobEmitter.done(**extra)`: payload `{"ok": True}` updated with
`extra`.  The pipeline calls it with no extra keys. -/
def done (extra : List (String × JVal)) : EventMsg :=
  ⟨"done", jobj (("ok", jbool true) :: extra)⟩

end JobEmitter

/-!
## SSE bridge (`sse_event_gen` in `server/routers/generate.py`)

One loop iteration starts with `psub.get_message(timeout=15.0)` — a
bounded poll.  Its outcome is modelled by `Poll`:

* `timeout`    — no message within the poll interval (`msg` is falsy);
  the generator yields a `ping` frame and continues;
* `nonMessage` — a pub/sub bookkeeping item (`msg["type"] != "message"`,
  e.g. the subscribe confirmation); skipped;
* `malformed`  — a message whose `msg["data"]` is not valid JSON:
  `json.loads` raises and the exception propagates out of the loop
  (through the `finally` block);
* `message m`  — a well-formed envelope, as produced by `publish_event`.

The generator itself is driven from outside; a finite poll trace models
one connection: when the trace ends without an internal `break`, the
transport has closed the generator (client disconnect, or the serving
task being cancelled), which in Python runs the `finally` block.
-/

/-- One outcome of `psub.get_message(timeout=15.0)`. -/
inductive Poll where
  | timeout
  | nonMessage
  | malformed
  | message (m : EventMsg)

/-- One value yielded by the generator:
`ping` is `"event: ping\ndata: {}\n\n"`, `eventLine k` is
`f"event: {k}\n"`, and `dataLine d` is `f"data: {json.dumps(d)}\n\n"`. -/
inductive SSEYield where
  | ping
  | eventLine (kind : String)
  | dataLine (data : JVal)

/-- How the generator's loop ended. -/
inductive SSEExit where
  /-- The `break` after forwarding a `done` event. -/
  | doneBreak
  /-- The poll trace ended with no internal break: the transport closed
  the generator (client disconnect / task cancellation). -/
  | sourceClosed
  /-- An exception (malformed message JSON) propagated out of the loop. -/
  | errored
deriving DecidableEq

/-- The `while True` loop body of `sse_event_gen`, iterated over a poll
trace.  The event kind is `payload.get("event", "log")` — always present
in envelopes produced by `publish_event` — and the loop breaks after
yielding the frame of a `done` event. -/
def sseLoop : List Poll → List SSEYield × SSEExit
  | [] => ([], .sourceClosed)
  | .timeout :: rest =>
      let (ys, e) := sseLoop rest
      (.ping :: ys, e)
  | .nonMessage :: rest => sseLoop rest
  | .malformed :: _ => ([], .errored)
  | .message m :: rest =>
      if m.event = "done" then ([.eventLine m.event, .dataLine m.data], .doneBreak)
      else
        let (ys, e) := sseLoop rest
        (.eventLine m.event :: .dataLine m.data :: ys, e)

/-- Result of one run of the generator: the yielded frames, how the loop
ended, and whether the `finally` block released the subscription
(`psub.unsubscribe(channel); psub.close()`, each wrapped so that cleanup
itself never raises). -/
structure SSERun where
  frames : List SSEYield
  exit : SSEExit
  cleanedUp : Bool

/-- `sse_event_gen(job_id)`'s generator over one poll trace: an initial
`ping` frame is yielded before the loop, then the loop runs; the
`finally` block runs on every exit path, so `cleanedUp` is
unconditionally `true`. -/
def sse_event_gen (polls : List Poll) : SSERun :=
  let (ys, e) := sseLoop polls
  ⟨.ping :: ys, e, true⟩

/-- A yielded frame whose data payload, if any, has no `artifacts`
field — what a subscriber would have to receive to learn the artifact
list. -/
def frameLacksArtifactsKey : SSEYield → Bool
  | .dataLine d => (jGet d "artifacts").isNone
  | _ => true

/-- A poll is a well-formed `done` message. -/
def pollIsDone : Poll → Bool
  | .message m => m.event = "done"
  | _ => false

/-- A poll is the malformed-JSON case. -/
def pollIsMalformed : Poll → Bool
  | .malformed => true
  | _ => false

/-!
## Pipeline (`run_job` in `server/services/crewai_pipeline.py`) and the
worker entrypoint (`run_job_worker` in `workers/worker.py`)
-/

/-- The slice of `Settings` the core reads. -/
structure Settings where
  JOBS_DIR : String

/-- The fields of the `project` dict that `run_job` reads, namely
`project["intent"]`.  `projectType` and `constraints` only feed the
prompt of the external watsonx call, whose result is unused. -/
structure Intent where
  projectType : Option String
  outputs : List String
  constraints : Option String
  editorialPreset : Option String

/-- The `project` payload as consumed by `run_job`. -/
structure ProjectDict where
  intent : Intent

/-- `os.path.join(cfg.JOBS_DIR, tenant, job_id)` in `job_dirs`. -/
def rootPath (cfg : Settings) (tenant jobId : String) : String :=
  cfg.JOBS_DIR ++ "/" ++ tenant ++ "/" ++ jobId

/-- `os.path.join(root, "artifacts")` in `job_dirs`. -/
def artPath (cfg : Settings) (tenant jobId : String) : String :=
  rootPath cfg tenant jobId ++ "/artifacts"

/-- The demo bytes every artifact file receives:
`f.write(b"%PDF-1.4 (demo bytes)")`. -/
def demoContent : String := "%PDF-1.4 (demo bytes)"

/-- `(project.get("intent", {}).get("editorialPreset") or "springer").lower()`:
Python's `or` replaces a missing or empty preset by `"springer"`. -/
def baseOf (preset : Option String) : String :=
  (match preset with
    | some s => if s = "" then "springer" else s
    | none => "springer").toLower

/-- `write_art(aid, label, name, size)` inside `run_job`: the artifact
dict appended to `artifacts` and emitted, and the file written under the
artifacts directory (always the 21 demo bytes, regardless of the `size`
recorded in the dict). -/
def write_art (jobId artDir aid label name : String) (size : Int) :
    JVal × (String × String) :=
  (jobj [("id", jstr aid), ("label", jstr label), ("status", jstr "ready"),
         ("href", jstr ("/api/exports/" ++ jobId ++ "/" ++ name)),
         ("bytes", jint size)],
   (artDir ++ "/" ++ name, demoContent))

/-- One conditional `if <fmt> in outs: write_art(...)` step. -/
def exportStep? (cond : Bool) (step : JVal × (String × String)) :
    List (JVal × (String × String)) :=
  if cond then [step] else []

/-- The export phase of `run_job`: the four `if <fmt> in outs` writes, in
source order, each followed by `emitter.artifact(artifacts[-1])`. -/
def exportSteps (jobId artDir base : String) (outs : List String) :
    List (JVal × (String × String)) :=
  exportStep? (outs.contains "springer")
      (write_art jobId artDir base (base.toUpper ++ " PDF") (base ++ ".pdf") 12340000)
    ++ exportStep? (outs.contains "epub")
      (write_art jobId artDir "epub" "EPUB" "book.epub" 7180000)
    ++ exportStep? (outs.contains "pdf")
      (write_art jobId artDir "pdf" "Print PDF" "print.pdf" 15510000)
    ++ exportStep? (outs.contains "mkdocs")
      (write_art jobId artDir "mkdocs" "MkDocs Site" "site.zip" 2240000)

/-- What one `run_job` call did: its return value (the artifact dicts),
the events it published on the job channel (in publish order), and the
files it wrote (path, content), appended to the artifacts directory. -/
structure RunOut where
  artifacts : List JVal
  events : List EventMsg
  files : List (String × String)

/-- `run_job(job_id, project, tenant, cfg_dict)`
(`server/services/crewai_pipeline.py`).  `guard()` re-reads the
cancellation flag at each checkpoint; since the flag is written
concurrently (cancel endpoint, TTL expiry), the value observed at the
k-th checkpoint is abstracted as `cancelAt k`.  Checkpoints 0..3 are the
four `if guard(): return []` sites, in source order; every `write_art`
happens after checkpoint 3, and events already emitted before a
checkpoint have been published when it fires. -/
def run_job (jobId : String) (project : ProjectDict) (tenant : String)
    (cfg : Settings) (cancelAt : Nat → Bool) : RunOut :=
  let _paths := (rootPath cfg tenant jobId, artPath cfg tenant jobId)
  if cancelAt 0 then ⟨[], [], []⟩ else
  let e1 := JobEmitter.progress 15 "Planning outline"
  let e2 := JobEmitter.log "info" "Outline proposed."
  if cancelAt 1 then ⟨[], [e1, e2], []⟩ else
  let e3 := JobEmitter.progress 55 "Writing content"
  if cancelAt 2 then ⟨[], [e1, e2, e3], []⟩ else
  let e4 := JobEmitter.progress 75 "Editing & QA"
  if cancelAt 3 then ⟨[], [e1, e2, e3, e4], []⟩ else
  let e5 := JobEmitter.progress 90 "Exporting"
  let outs := project.intent.outputs
  let base := baseOf project.intent.editorialPreset
  let steps := exportSteps jobId (artPath cfg tenant jobId) base outs
  ⟨steps.map (·.1),
   [e1, e2, e3, e4, e5]
     ++ steps.map (fun s => JobEmitter.artifact s.1)
     ++ [JobEmitter.progress 100 "Done", JobEmitter.done []],
   steps.map (·.2)⟩

/-- `run_job_worker(project, tenant, cfg_dict)` (`workers/worker.py`).
The pipeline call is abstracted by its observable behaviour: the events
it published before returning or raising (`pipelineEvents`) and its
outcome (`.ok artifacts` for a normal return, `.error e` for an
unhandled exception).  The body has NO try/except: on `.error` the
exception propagates to RQ at once and the worker publishes nothing
further — in particular no `done` envelope.  On `.ok` it publishes
`("done", {"ok": True, "artifacts": artifacts})` directly via
`publish_event` (not via the emitter). -/
def run_job_worker (jobId : String) (pipelineEvents : List EventMsg)
    (outcome : Except String (List JVal)) :
    List (String × EventMsg) × Except String (List JVal) :=
  let ch := jobChannel jobId
  let started : String × EventMsg :=
    (ch, ⟨"log", jobj [("level", jstr "info"), ("msg", jstr "Job started")]⟩)
  match outcome with
  | .ok artifacts =>
      (started :: pipelineEvents.map (fun m => (ch, m))
         ++ [(ch, ⟨"done", jobj [("ok", jbool true), ("artifacts", jarr artifacts)]⟩)],
       .ok artifacts)
  | .error e =>
      (started :: pipelineEvents.map (fun m => (ch, m)), .error e)

/-- A full worker run in which the pipeline runs to completion or early
cancellation return (no exception): `run_job_worker` composed with
`run_job`. -/
def worker_run (jobId : String) (project : ProjectDict) (tenant : String)
    (cfg : Settings) (cancelAt : Nat → Bool) :
    List (String × EventMsg) × Except String (List JVal) :=
  let out := run_job jobId project tenant cfg cancelAt
  run_job_worker jobId out.events (.ok out.artifacts)

/-!
## Job submission (`start` in `server/routers/generate.py`) and the
pydantic request shape (`server/models.py`)
-/

/-- The `OutputFormat` literal type. -/
def validOutput (s : String) : Bool :=
  s = "springer" || s = "epub" || s = "pdf" || s = "mkdocs"

/-- The `ProjectType` literal type. -/
def validProjectType (s : String) : Bool :=
  s = "book" || s = "workshop" || s = "mkdocs" || s = "journal"
    || s = "proceedings" || s = "blog"

/-- The `EditorialPreset` literal type. -/
def validPreset (s : String) : Bool :=
  s = "springer" || s = "oxford" || s = "acm" || s = "ieee"

/-- An optional (`Optional[str]`, default `None`) field: absent, null, or
a string. -/
def optStrField (o : Option JVal) : Bool :=
  match o with
  | none => true
  | some jnull => true
  | some (jstr _) => true
  | _ => false

/-- `IntakeData`: `collection: Optional[str]`; `lastIngest`/`docmap` are
`Any`.  The value itself must be a dict. -/
def validIntake : JVal → Bool
  | jobj fields => optStrField (fields.lookup "collection")
  | _ => false

/-- `IntentData`: every field optional; `outputs` defaults to `[]` and
its elements must be `OutputFormat` literals; `projectType` and
`editorialPreset` are constrained literals when present. -/
def validIntent : JVal → Bool
  | jobj fields =>
      (match fields.lookup "projectType" with
        | none => true | some jnull => true
        | some (jstr s) => validProjectType s | _ => false)
      && (match fields.lookup "outputs" with
        | none => true
        | some (jarr xs) => xs.all fun x =>
            match x with | jstr s => validOutput s | _ => false
        | _ => false)
      && optStrField (fields.lookup "title")
      && optStrField (fields.lookup "subtitle")
      && (match fields.lookup "authors" with
        | none => true | some jnull => true
        | some (jarr xs) => xs.all fun x =>
            match x with | jstr _ => true | _ => false
        | _ => false)
      && optStrField (fields.lookup "audience")
      && optStrField (fields.lookup "tone")
      && optStrField (fields.lookup "constraints")
      && optStrField (fields.lookup "due")
      && (match fields.lookup "editorialPreset" with
        | none => true | some jnull => true
        | some (jstr s) => validPreset s | _ => false)
  | _ => false

/-- `OutlineData`: `plan`/`scheduleJson` are `Any`;
`approved: Optional[bool]`.  The value itself must be a dict. -/
def validOutline : JVal → Bool
  | jobj fields =>
      (match fields.lookup "approved" with
        | none => true | some jnull => true
        | some (jbool _) => true | _ => false)
  | _ => false

/-- `Project`: required `id: str`, `name: str`, `createdAt: int`, and the
three sub-models.  (Pydantic's lax numeric coercions are not modelled;
well-typed and ill-shaped payloads are classified as the model declares.) -/
def validProject : JVal → Bool
  | jobj fields =>
      (match fields.lookup "id" with | some (jstr _) => true | _ => false)
      && (match fields.lookup "name" with | some (jstr _) => true | _ => false)
      && (match fields.lookup "createdAt" with | some (jint _) => true | _ => false)
      && (match fields.lookup "intake" with | some v => validIntake v | none => false)
      && (match fields.lookup "intent" with | some v => validIntent v | none => false)
      && (match fields.lookup "outline" with | some v => validOutline v | none => false)
  | _ => false

/-- `StartJobRequest(**body)`: a required `project: Project` field. -/
def validStartJobRequest (body : JVal) : Bool :=
  match jGet body "project" with
  | some v => validProject v
  | none => false

/-- One entry of the RQ queue as created by `q.enqueue(...)` in `start`. -/
structure QueueEntry where
  task : String
  projectArg : JVal
  tenantArg : String
  job_timeout : Nat
  failure_ttl : Nat
  result_ttl : Nat

/-- The RQ queue: entries in enqueue order. -/
structure QueueState where
  entries : List QueueEntry

/-- `POST /generate/start` (`server/routers/generate.py`).  On a body
that fails `StartJobRequest` validation it raises `HTTPException(400)`
and touches nothing; otherwise it enqueues exactly one job — task
`"workers.worker.run_job_worker"`, `job_timeout=900`, `failure_ttl=3600`,
`result_ttl=3600` — and answers
`{"ok": True, "job_id": job.id, "stream": f"/api/generate/stream?job_id={job.id}"}`.
`newJobId` stands for the queue-assigned `job.id`; `projectArg` is the
validated project payload (`req.project.model_dump()`; pydantic's
default-filling on dump is not modelled). -/
def start (body : JVal) (tenant : String) (newJobId : String)
    (q : QueueState) : Except Nat JVal × QueueState :=
  if validStartJobRequest body then
    let entry : QueueEntry :=
      { task := "workers.worker.run_job_worker"
        projectArg := (jGet body "project").getD jnull
        tenantArg := tenant
        job_timeout := 900
        failure_ttl := 3600
        result_ttl := 3600 }
    (.ok (jobj [("ok", jbool true), ("job_id", jstr newJobId),
                ("stream", jstr ("/api/generate/stream?job_id=" ++ newJobId))]),
     ⟨q.entries ++ [entry]⟩)
  else
    (.error 400, q)

/-- `POST /generate/cancel` (`server/routers/generate.py`).  `jobIdField`
is `body.get("job_id")` (`none` when the key is absent).  Python's
`if not job_id` sends every falsy value — absent, `None`, and the empty
string — to `HTTPException(400)`; otherwise the endpoint runs
`r.setex(f"job:{job_id}:cancel", 600, b"1")` and answers
`{"ok": True, "cancelled": True}`.  (The API's `job_id` is a string;
non-string values are not modelled.) -/
def cancel (jobIdField : Option String) (st : RedisState) :
    (Except Nat JVal) × RedisState :=
  match jobIdField with
  | none => (.error 400, st)
  | some jobId =>
      if jobId = "" then (.error 400, st)
      else (.ok (jobj [("ok", jbool true), ("cancelled", jbool true)]),
            st.setex (cancelKey jobId) 600 "1")

/-!
## Job directories (`job_dirs` in `server/services/jobs.py`)
-/

/-- The set of directories that exist, as a list of paths.  `makedirs`
with `exist_ok=True` never raises; with `exist_ok=False` it raises
`FileExistsError` when the leaf already exists.  Parent creation is
folded into the leaf entry. -/
def makedirs (dirs : List String) (path : String) (exist_ok : Bool) :
    Except String (List String) :=
  if dirs.contains path then
    if exist_ok then .ok dirs else .error "FileExistsError"
  else .ok (path :: dirs)

/-- `job_dirs(cfg, tenant, job_id)` (`server/services/jobs.py`):
`os.makedirs(art, exist_ok=True)` then
`{"root": root, "artifacts": art}`. -/
def job_dirs (cfg : Settings) (tenant jobId : String)
    (dirs : List String) : Except String ((String × String) × List String) :=
  let root := rootPath cfg tenant jobId
  let art := artPath cfg tenant jobId
  (makedirs dirs art true).map fun dirs' => ((root, art), dirs')

/-!
## Artifact listing (`list_artifacts` in `server/routers/exports.py`)
-/

/-- One `os.listdir` entry of the artifacts directory together with what
`os.path.isfile` / `os.path.getsize` answer for it. -/
structure DirEntry where
  name : String
  size : Nat
  isFile : Bool

/-- `fn.rsplit(".", 1)[0]`: everything before the last dot; the whole
name when there is no dot. -/
def stripExtAux : List Char → Option (List Char)
  | [] => none
  | c :: cs =>
      match stripExtAux cs with
      | some rest => some (c :: rest)
      | none => if c = '.' then some [] else none

/-- `fn.rsplit(".", 1)[0]` on strings. -/
def stripExt (fn : String) : String :=
  match stripExtAux fn.data with
  | some cs => ⟨cs⟩
  | none => fn

/-- The download path of the route
`GET /api/exports/{job_id}/{filename}` (router prefix `/api`). -/
def downloadPath (jobId fn : String) : String :=
  "/api/exports/" ++ jobId ++ "/" ++ fn

/-- The dict built per regular file in `list_artifacts`. -/
def artifactEntry (jobId : String) (e : DirEntry) : JVal :=
  jobj [("id", jstr (stripExt e.name)), ("label", jstr e.name),
        ("href", jstr (downloadPath jobId e.name)),
        ("bytes", jint e.size)]

/-- `GET /api/exports/{job_id}` (`server/routers/exports.py`):
`{"ok": True, "artifacts": []}` when the artifacts directory does not
exist, else one entry per `os.listdir` name that is a regular file. -/
def list_artifacts (jobId : String) (dirExists : Bool)
    (entries : List DirEntry) : JVal :=
  if dirExists then
    jobj [("ok", jbool true),
          ("artifacts", jarr ((entries.filter (·.isFile)).map (artifactEntry jobId)))]
  else
    jobj [("ok", jbool true), ("artifacts", jarr [])]

/-- A concrete, well-shaped `Project` payload (used to instantiate the
endpoint and pipeline theorems at explicit inputs). -/
def sampleProject : JVal :=
  jobj [("id", jstr "p1"), ("name", jstr "Demo"), ("createdAt", jint 1),
        ("intake", jobj []),
        ("intent", jobj [("projectType", jstr "book"),
                         ("outputs", jarr [jstr "pdf"])]),
        ("outline", jobj [])]

/-- A concrete `ProjectDict` for pipeline runs: a book with one `pdf`
output and no editorial preset. -/
def sampleProjectDict : ProjectDict :=
  ⟨⟨some "book", ["pdf"], none, none⟩⟩

/-!
## Helper lemmas
-/

/-- Processing a trace prefix that contains neither a `done` message nor
a malformed message forwards it whole and continues with the rest. -/
theorem sseLoop_clean_append (pre rest : List Poll)
    (h : ∀ p ∈ pre, pollIsDone p = false ∧ pollIsMalformed p = false) :
    sseLoop (pre ++ rest)
      = ((sseLoop pre).1 ++ (sseLoop rest).1, (sseLoop rest).2) := by
  induction pre with
  | nil => simp [sseLoop]
  | cons p pre ih =>
      have hp := h p (List.mem_cons_self _ _)
      have hrest : ∀ q ∈ pre, pollIsDone q = false ∧ pollIsMalformed q = false :=
        fun q hq => h q (List.mem_cons_of_mem _ hq)
      cases p with
      | timeout => simp [sseLoop, ih hrest]
      | nonMessage => simp [sseLoop, ih hrest]
      | malformed => simp [pollIsMalformed] at hp
      | message m =>
          have hm : ¬ (m.event = "done") := by
            simpa [pollIsDone] using hp.1
          simp [sseLoop, hm, ih hrest]

/-- On a trace with no `done` and no malformed message, the loop never
breaks: the run ends only because the transport closes the generator. -/
theorem sseLoop_clean_exit (polls : List Poll)
    (h : ∀ p ∈ polls, pollIsDone p = false ∧ pollIsMalformed p = false) :
    (sseLoop polls).2 = .sourceClosed := by
  induction polls with
  | nil => simp [sseLoop]
  | cons p polls ih =>
      have hp := h p (List.mem_cons_self _ _)
      have hrest : ∀ q ∈ polls, pollIsDone q = false ∧ pollIsMalformed q = false :=
        fun q hq => h q (List.mem_cons_of_mem _ hq)
      cases p with
      | timeout => simp [sseLoop, ih hrest]
      | nonMessage => simp [sseLoop, ih hrest]
      | malformed => simp [pollIsMalformed] at hp
      | message m =>
          have hm : ¬ (m.event = "done") := by
            simpa [pollIsDone] using hp.1
          simp [sseLoop, hm, ih hrest]

/-- A `done` message is forwarded (`event:` line then `data:` line) and
the loop breaks at once, ignoring the rest of the trace. -/
theorem sseLoop_done (m : EventMsg) (suf : List Poll) (hm : m.event = "done") :
    sseLoop (Poll.message m :: suf)
      = ([.eventLine m.event, .dataLine m.data], .doneBreak) := by
  simp [sseLoop, hm]

/-!
## Claims
-/

/-- **C3.** For every execution of the SSE stream generator for a job_id,
the loop terminates when a `done` event is observed (after forwarding
it), when the client disconnects, or when the serving task is cancelled
— both of the latter close the generator from the transport side; after
a `done` event has been forwarded no further event frame is yielded (the
trace after the `done` message is irrelevant to the run); and on every
exit path, including exceptions, the Event Bus subscription for the
job's channel is unsubscribed and closed (the `finally` block runs
unconditionally). -/
theorem c3_sse_stream_lifecycle (polls pre suf : List Poll) (m : EventMsg)
    (hpre : ∀ p ∈ pre, pollIsDone p = false ∧ pollIsMalformed p = false)
    (hm : m.event = "done")
    (hpolls : ∀ p ∈ polls, pollIsDone p = false ∧ pollIsMalformed p = false) :
    (∀ tr : List Poll, (sse_event_gen tr).cleanedUp = true)
    ∧ sse_event_gen (pre ++ Poll.message m :: suf)
        = sse_event_gen (pre ++ [Poll.message m])
    ∧ (sse_event_gen (pre ++ Poll.message m :: suf)).exit = .doneBreak
    ∧ (sse_event_gen (pre ++ Poll.message m :: suf)).frames.getLast?
        = some (.dataLine m.data)
    ∧ (sse_event_gen polls).exit = .sourceClosed := by
  have hdone := sseLoop_done m suf hm
  have hdone1 := sseLoop_done m [] hm
  have happ := sseLoop_clean_append pre (Poll.message m :: suf) hpre
  have happ1 := sseLoop_clean_append pre [Poll.message m] hpre
  refine ⟨fun tr => rfl, ?_, ?_, ?_, ?_⟩
  · simp [sse_event_gen, happ, happ1, hdone, hdone1]
  · simp [sse_event_gen, happ, hdone]
  · have hfr : (sse_event_gen (pre ++ Poll.message m :: suf)).frames
        = (SSEYield.ping :: (sseLoop pre).1 ++ [SSEYield.eventLine m.event])
            ++ [SSEYield.dataLine m.data] := by
      simp [sse_event_gen, happ, hdone]
    rw [hfr, List.getLast?_concat]
  · simp [sse_event_gen, sseLoop_clean_exit polls hpolls]

/-- Witness for C3: a concrete trace — one timeout, then `done`, then a
late `log` message — breaks the loop at the `done` event. -/
theorem c3_sse_stream_lifecycle_witness :
    (sse_event_gen ([Poll.timeout]
        ++ Poll.message ⟨"done", jobj [("ok", jbool true)]⟩
          :: [Poll.message ⟨"log", jnull⟩])).exit = SSEExit.doneBreak :=
  (c3_sse_stream_lifecycle [Poll.timeout] [Poll.timeout]
      [Poll.message ⟨"log", jnull⟩] ⟨"done", jobj [("ok", jbool true)]⟩
      (by intro p hp; rw [List.mem_singleton] at hp; subst hp; exact ⟨rfl, rfl⟩)
      rfl
      (by intro p hp; rw [List.mem_singleton] at hp; subst hp; exact ⟨rfl, rfl⟩)).2.2.1

/-- **C4.** For every job_id, the SSE stream's first emitted frame is a
`ping`, emitted before any bus event is forwarded; whenever a poll times
out without a bus message the generator emits a `ping` keep-alive frame
instead of blocking; and on any trace of timeouts and non-`done`
messages every poll yields at least one frame, so a subscriber never
waits more than the bounded poll interval (15 s) without receiving
either an event frame or a `ping` frame, until `done` or disconnect. -/
theorem c4_sse_first_ping_keepalive (polls rest : List Poll)
    (h : ∀ p ∈ polls, p = Poll.timeout
          ∨ ∃ m, p = Poll.message m ∧ m.event ≠ "done") :
    (sse_event_gen polls).frames.head? = some SSEYield.ping
    ∧ (sseLoop (Poll.timeout :: rest)).1.head? = some SSEYield.ping
    ∧ polls.length + 1 ≤ (sse_event_gen polls).frames.length := by
  refine ⟨by simp [sse_event_gen], by simp [sseLoop], ?_⟩
  have key : ∀ (tr : List Poll),
      (∀ p ∈ tr, p = Poll.timeout
          ∨ ∃ m, p = Poll.message m ∧ m.event ≠ "done") →
      tr.length ≤ (sseLoop tr).1.length := by
    intro tr
    induction tr with
    | nil => intro _; simp
    | cons p tr ih =>
        intro htr
        have hp := htr p (List.mem_cons_self _ _)
        have hrest := fun q hq => htr q (List.mem_cons_of_mem _ hq)
        rcases hp with hp | ⟨m, hp, hm⟩
        · subst hp
          simpa [sseLoop] using Nat.succ_le_succ (ih hrest)
        · subst hp
          have := ih hrest
          simp only [sseLoop, hm, if_neg hm]
          simpa using Nat.le_succ_of_le (Nat.succ_le_succ this)
  have := key polls h
  simpa [sse_event_gen, Nat.succ_le_succ_iff] using Nat.succ_le_succ this

/-- Witness for C4: a timeout followed by a `log` message gives a `ping`
head frame and at least three frames for two polls. -/
theorem c4_sse_first_ping_keepalive_witness :
    (sse_event_gen [Poll.timeout, Poll.message ⟨"log", jnull⟩]).frames.head?
      = some SSEYield.ping :=
  (c4_sse_first_ping_keepalive [Poll.timeout, Poll.message ⟨"log", jnull⟩] []
      (by
        intro p hp
        rcases List.mem_cons.mp hp with h1 | hp
        · exact Or.inl h1
        · rw [List.mem_singleton] at hp
          subst hp
          exact Or.inr ⟨⟨"log", jnull⟩, rfl, by decide⟩)).1

/-- **C9.** For every tenant and job_id, calling `job_dirs` twice
returns the same `{root, artifacts}` paths both times and does not
error when the directories already exist: the `os.makedirs(...,
exist_ok=True)` call is idempotent, and the second call leaves the
directory set unchanged. -/
theorem c9_job_dirs_idempotent (cfg : Settings) (tenant jobId : String)
    (dirs : List String) :
    ∃ dirs₁,
      job_dirs cfg tenant jobId dirs
          = .ok ((rootPath cfg tenant jobId, artPath cfg tenant jobId), dirs₁)
      ∧ job_dirs cfg tenant jobId dirs₁
          = .ok ((rootPath cfg tenant jobId, artPath cfg tenant jobId), dirs₁) := by
  by_cases h : artPath cfg tenant jobId ∈ dirs
  · exact ⟨dirs, by simp [job_dirs, makedirs, h, Except.map],
      by simp [job_dirs, makedirs, h, Except.map]⟩
  · refine ⟨artPath cfg tenant jobId :: dirs, ?_, ?_⟩
    · simp [job_dirs, makedirs, h, Except.map]
    · simp [job_dirs, makedirs, Except.map]

/-- **C10.** For every completed job, `GET /exports/{job_id}` returns
exactly one artifact entry per regular file in the job's artifacts
directory — the listing is the image of the regular files under
`artifactEntry` — and each entry has `id` equal to the filename without
its extension (`fn.rsplit(".", 1)[0]`), `href` equal to the download
path for that job_id and filename, and `bytes` equal to the size of the
file on disk. -/
theorem c10_exports_listing (jobId : String) (entries : List DirEntry) :
    jGet (list_artifacts jobId true entries) "artifacts"
        = some (jarr ((entries.filter (·.isFile)).map (artifactEntry jobId)))
    ∧ ∀ e : DirEntry,
        jGet (artifactEntry jobId e) "id" = some (jstr (stripExt e.name))
        ∧ jGet (artifactEntry jobId e) "href"
            = some (jstr (downloadPath jobId e.name))
        ∧ jGet (artifactEntry jobId e) "bytes" = some (jint e.size) := by
  refine ⟨by simp [list_artifacts, jGet, List.lookup], fun e => ⟨?_, ?_, ?_⟩⟩
    <;> simp [artifactEntry, jGet, List.lookup]

/-- **C7 counterexample.** The published progress payload carries keys
`pct`/`msg`, not `percent`/`label`, and the value is not clamped to
`[0, 100]`: at input `150` the payload is `{"pct": 150, "msg": ...}`
with no `percent` or `label` field and an out-of-range value. -/
theorem c7_counterexample :
    jGet (JobEmitter.progress 150 "Exporting").data "percent" = none
    ∧ jGet (JobEmitter.progress 150 "Exporting").data "label" = none
    ∧ jGet (JobEmitter.progress 150 "Exporting").data "pct" = some (jint 150)
    ∧ ¬ (150 : Int) ≤ 100 := ⟨rfl, rfl, rfl, by decide⟩

/-- **C7 (amended).** Every progress event published by the Job Emitter
has kind `progress` and a data payload of shape
`{pct: int, msg: string}`; the percent value is passed through `int()`
unchanged (the parameter is already an integer) and is not range
clamped. -/
theorem c7_progress_payload (pct : Int) (msg : String) :
    JobEmitter.progress pct msg
        = ⟨"progress", jobj [("pct", jint pct), ("msg", jstr msg)]⟩
    ∧ (JobEmitter.progress pct msg).event = "progress"
    ∧ jGet (JobEmitter.progress pct msg).data "pct" = some (jint pct)
    ∧ jGet (JobEmitter.progress pct msg).data "msg" = some (jstr msg)
    ∧ jGet (JobEmitter.progress pct msg).data "percent" = none
    ∧ jGet (JobEmitter.progress pct msg).data "label" = none := by
  refine ⟨rfl, rfl, ?_, ?_, ?_, ?_⟩ <;> simp [JobEmitter.progress, jGet, List.lookup]

/-- **C8 counterexample.** A present-but-empty `job_id` (`{"job_id": ""}`)
is rejected with 400 and sets no flag, although the claim's "otherwise"
branch (job_id not missing) promises `{ok, cancelled: true}` and a set
flag: Python's `if not job_id` treats every falsy value as missing. -/
theorem c8_counterexample :
    (cancel (some "") ⟨[], []⟩).1
        ≠ .ok (jobj [("ok", jbool true), ("cancelled", jbool true)])
    ∧ is_cancelled (cancel (some "") ⟨[], []⟩).2 "" = false := by
  refine ⟨?_, rfl⟩
  intro h
  simp [cancel] at h

/-- **C8 (amended).** For every request to `POST /generate/cancel`: if
`job_id` is missing — or falsy, e.g. the empty string — the endpoint
fails with HTTP 400; otherwise it sets the cancellation flag for that
job_id with TTL 600 s and returns `{ok: true, cancelled: true}`; and
`is_cancelled` then reads the flag as set without clearing it (it is a
pure read of the store). -/
theorem c8_cancel_flag (st : RedisState) (jobId : String) (h : jobId ≠ "") :
    cancel (some jobId) st
        = (.ok (jobj [("ok", jbool true), ("cancelled", jbool true)]),
           st.setex (cancelKey jobId) 600 "1")
    ∧ (cancel (some jobId) st).2.getKey (cancelKey jobId) = some (600, "1")
    ∧ is_cancelled (cancel (some jobId) st).2 jobId = true
    ∧ cancel none st = (.error 400, st) := by
  refine ⟨by simp [cancel, h], ?_, ?_, rfl⟩
  · simp [cancel, h, RedisState.getKey, RedisState.setex, List.lookup]
  · simp [cancel, h, is_cancelled, RedisState.getKey, RedisState.setex, List.lookup]

/-- Witness for C8: cancelling job `"j1"` on an empty store leaves the
flag readable. -/
theorem c8_cancel_flag_witness :
    is_cancelled (cancel (some "j1") ⟨[], []⟩).2 "j1" = true :=
  (c8_cancel_flag ⟨[], []⟩ "j1" (by decide)).2.2.1

/-- **C1 counterexample.** `run_job_worker` has no try/except around the
pipeline call: if the job body raises before publishing anything, the
only envelope on the channel is the initial "Job started" log — no
error-level log, no `done` with `ok=false` — and the exception
propagates to the queue as-is.  This refutes the claim that a terminal
`done` event is published before the re-raise. -/
theorem c1_counterexample :
    (run_job_worker "j1" [] (.error "boom")).1
        = [(jobChannel "j1",
            ⟨"log", jobj [("level", jstr "info"), ("msg", jstr "Job started")]⟩)]
    ∧ ((run_job_worker "j1" [] (.error "boom")).1.filter
          (fun p => p.2.event == "done")) = []
    ∧ (run_job_worker "j1" [] (.error "boom")).2 = .error "boom" :=
  ⟨rfl, rfl, rfl⟩

/-- **C1 (amended).** For every job executed by the worker harness, if
the job body raises an unhandled exception, the harness publishes no
further event on the job's channel — no error-level log event and no
`done` event with `ok=false` — and the exception propagates to the
queue immediately: the channel carries exactly the initial "Job started"
log followed by whatever the pipeline itself had already published, and
the number of `done` events on the channel equals the number the
pipeline itself published. -/
theorem c1_worker_exception (jobId : String) (pipelineEvents : List EventMsg)
    (err : String) :
    run_job_worker jobId pipelineEvents (.error err)
        = ((jobChannel jobId,
            ⟨"log", jobj [("level", jstr "info"), ("msg", jstr "Job started")]⟩)
             :: pipelineEvents.map (fun m => (jobChannel jobId, m)),
           .error err)
    ∧ ((run_job_worker jobId pipelineEvents (.error err)).1.filter
          (fun p => p.2.event == "done")).length
        = (pipelineEvents.filter (fun m => m.event == "done")).length := by
  refine ⟨rfl, ?_⟩
  simp only [run_job_worker]
  rw [List.filter_cons_of_neg (by simp)]
  induction pipelineEvents with
  | nil => rfl
  | cons m evs ih =>
      by_cases hm : m.event == "done"
      · simp [List.filter_cons, hm, ih]
      · simp only [List.map_cons]
        rw [List.filter_cons_of_neg (by simpa using hm),
            List.filter_cons_of_neg (by simpa using hm)]
        exact ih

/-- **C5.** For every request to `POST /generate/start`: if the body
fails validation against the `StartJobRequest` shape, the endpoint
fails with HTTP 400 and the queue is unchanged; otherwise it enqueues
exactly one job — task `workers.worker.run_job_worker` with
`job_timeout=900`, `failure_ttl=3600`, `result_ttl=3600` — and returns
`{ok: true, job_id, stream}` where the stream path contains that
job_id. -/
theorem c5_start_contract (body : JVal) (tenant newJobId : String)
    (q : QueueState) :
    (validStartJobRequest body = false →
      start body tenant newJobId q = (.error 400, q))
    ∧ (validStartJobRequest body = true →
      (start body tenant newJobId q).2.entries
          = q.entries
              ++ [⟨"workers.worker.run_job_worker",
                   (jGet body "project").getD jnull, tenant, 900, 3600, 3600⟩]
      ∧ (start body tenant newJobId q).1
          = .ok (jobj [("ok", jbool true), ("job_id", jstr newJobId),
                       ("stream",
                        jstr ("/api/generate/stream?job_id=" ++ newJobId))])
      ∧ ∃ pre post,
          "/api/generate/stream?job_id=" ++ newJobId = pre ++ newJobId ++ post) := by
  constructor
  · intro h
    simp [start, h]
  · intro h
    refine ⟨?_, ?_, "/api/generate/stream?job_id=", "", ?_⟩
    · simp [start, h]
    · simp [start, h]
    · simp

/-- Witness for C5: the empty body (no `project`) is rejected with 400
leaving the queue empty, and a well-shaped body is accepted with the
stream path built from the assigned job id. -/
theorem c5_start_contract_witness :
    start (jobj []) "t1" "job-1" ⟨[]⟩ = (.error 400, ⟨[]⟩)
    ∧ (start (jobj [("project", sampleProject)]) "t1" "job-1" ⟨[]⟩).1
        = .ok (jobj [("ok", jbool true), ("job_id", jstr "job-1"),
                     ("stream",
                      jstr ("/api/generate/stream?job_id=" ++ "job-1"))]) :=
  ⟨(c5_start_contract (jobj []) "t1" "job-1" ⟨[]⟩).1 rfl,
   ((c5_start_contract (jobj [("project", sampleProject)]) "t1" "job-1" ⟨[]⟩).2
      rfl).2.1⟩

/-- `getLast?` of a cons followed by a snoc. -/
theorem getLast?_cons_concat {α : Type} (a d : α) (l : List α) :
    (a :: (l ++ [d])).getLast? = some d := by
  rw [← List.cons_append]
  exact List.getLast?_concat _

/-- **C2.** For every run in which the cancellation flag is observed set
at one of the pipeline's four checkpoints, the pipeline stops before its
artifact-producing export phase: it returns the empty artifact list,
writes no files (so everything previously on disk remains — appending
its write set changes nothing), and the worker harness still publishes
a terminal `done` event (`{ok: true, artifacts: []}`) as the last
envelope on the job's channel. -/
theorem c2_cancellation_stops_pipeline (cfg : Settings)
    (jobId tenant : String) (project : ProjectDict) (cancelAt : Nat → Bool)
    (h : ∃ k, k < 4 ∧ cancelAt k = true) :
    (run_job jobId project tenant cfg cancelAt).artifacts = []
    ∧ (run_job jobId project tenant cfg cancelAt).files = []
    ∧ (∀ fs : List (String × String),
        fs ++ (run_job jobId project tenant cfg cancelAt).files = fs)
    ∧ (worker_run jobId project tenant cfg cancelAt).1.getLast?
        = some (jobChannel jobId,
                ⟨"done", jobj [("ok", jbool true), ("artifacts", jarr [])]⟩) := by
  have hstop : run_job jobId project tenant cfg cancelAt
      = ⟨[], (run_job jobId project tenant cfg cancelAt).events, []⟩ := by
    rcases h with ⟨k, hk, hc⟩
    by_cases h0 : cancelAt 0 = true
    · simp [run_job, h0]
    · by_cases h1 : cancelAt 1 = true
      · simp [run_job, h0, h1]
      · by_cases h2 : cancelAt 2 = true
        · simp [run_job, h0, h1, h2]
        · by_cases h3 : cancelAt 3 = true
          · simp [run_job, h0, h1, h2, h3]
          · interval_cases k <;> simp_all
  refine ⟨by rw [hstop], by rw [hstop], fun fs => by rw [hstop]; simp, ?_⟩
  rw [worker_run, hstop]
  simp only [run_job_worker]
  exact getLast?_cons_concat _ _ _

/-- Witness for C2: with the flag observed set at checkpoint 2, the run
of the sample project produces no artifacts. -/
theorem c2_cancellation_stops_pipeline_witness :
    (run_job "j1" sampleProjectDict "t1" ⟨"/data/jobs"⟩
        (fun k => k == 2)).artifacts = [] :=
  (c2_cancellation_stops_pipeline ⟨"/data/jobs"⟩ "j1" "t1" sampleProjectDict
      (fun k => k == 2) ⟨2, by decide, rfl⟩).1

theorem getLast?_append_pair {α : Type} (x y : α) (l : List α) :
    (l ++ [x, y]).getLast? = some y := by
  have h : l ++ [x, y] = (l ++ [x]) ++ [y] := by simp
  rw [h, List.getLast?_concat]

theorem run_job_nocancel (jobId : String) (project : ProjectDict)
    (tenant : String) (cfg : Settings) (cancelAt : Nat → Bool)
    (h : ∀ k, cancelAt k = false) :
    run_job jobId project tenant cfg cancelAt
      = ⟨(exportSteps jobId (artPath cfg tenant jobId)
            (baseOf project.intent.editorialPreset)
            project.intent.outputs).map (·.1),
         [JobEmitter.progress 15 "Planning outline",
          JobEmitter.log "info" "Outline proposed.",
          JobEmitter.progress 55 "Writing content",
          JobEmitter.progress 75 "Editing & QA",
          JobEmitter.progress 90 "Exporting"]
           ++ (exportSteps jobId (artPath cfg tenant jobId)
                (baseOf project.intent.editorialPreset)
                project.intent.outputs).map (fun s => JobEmitter.artifact s.1)
           ++ [JobEmitter.progress 100 "Done", JobEmitter.done []],
         (exportSteps jobId (artPath cfg tenant jobId)
            (baseOf project.intent.editorialPreset)
            project.intent.outputs).map (·.2)⟩ := by
  simp [run_job, h]

theorem write_art_no_artifacts_key (jobId artDir aid label name : String)
    (size : Int) :
    jGet (write_art jobId artDir aid label name size).1 "artifacts" = none := rfl

theorem exportSteps_no_artifacts_key (jobId artDir base : String)
    (outs : List String) :
    ∀ s ∈ exportSteps jobId artDir base outs,
      jGet s.1 "artifacts" = none := by
  have hstep : ∀ (c : Bool) (t : JVal × (String × String)),
      jGet t.1 "artifacts" = none →
      ∀ s ∈ exportStep? c t, jGet s.1 "artifacts" = none := by
    intro c t ht s hs
    unfold exportStep? at hs
    split at hs
    · rw [List.mem_singleton] at hs
      subst hs
      exact ht
    · cases hs
  intro s hs
  simp only [exportSteps, List.mem_append] at hs
  rcases hs with ((h1 | h2) | h3) | h4
  · exact hstep _ _ (write_art_no_artifacts_key _ _ _ _ _ _) _ h1
  · exact hstep _ _ (write_art_no_artifacts_key _ _ _ _ _ _) _ h2
  · exact hstep _ _ (write_art_no_artifacts_key _ _ _ _ _ _) _ h3
  · exact hstep _ _ (write_art_no_artifacts_key _ _ _ _ _ _) _ h4

theorem sseLoop_messages (msgs : List EventMsg)
    (h : ∀ m ∈ msgs, m.event ≠ "done") :
    (sseLoop (msgs.map Poll.message)).1
      = msgs.flatMap
          (fun m => [SSEYield.eventLine m.event, SSEYield.dataLine m.data]) := by
  induction msgs with
  | nil => simp [sseLoop]
  | cons m msgs ih =>
      have hm := h m (List.mem_cons_self _ _)
      have hrest := fun q hq => h q (List.mem_cons_of_mem _ hq)
      simp [sseLoop, hm, ih hrest]

theorem sse_run_to_first_done (pre : List EventMsg) (d : EventMsg)
    (suf : List Poll) (hpre : ∀ m ∈ pre, m.event ≠ "done")
    (hd : d.event = "done") :
    sse_event_gen (pre.map Poll.message ++ (Poll.message d :: suf))
      = ⟨SSEYield.ping
           :: pre.flatMap
                (fun m => [SSEYield.eventLine m.event, SSEYield.dataLine m.data])
           ++ [SSEYield.eventLine d.event, SSEYield.dataLine d.data],
         .doneBreak, true⟩ := by
  have hpre' : ∀ p ∈ pre.map Poll.message,
      pollIsDone p = false ∧ pollIsMalformed p = false := by
    intro p hp
    rcases List.mem_map.mp hp with ⟨m, hm, rfl⟩
    exact ⟨by simp [pollIsDone, hpre m hm], rfl⟩
  have happ := sseLoop_clean_append (pre.map Poll.message)
    (Poll.message d :: suf) hpre'
  have hdone := sseLoop_done d suf hd
  have hmsgs := sseLoop_messages pre hpre
  simp [sse_event_gen, happ, hdone, hmsgs]

/-- **C6.** For every successful, non-cancelled run of `run_job_worker`,
two `done` events are published on the job's channel: first the
pipeline's `done` with payload `{ok: true}` and no `artifacts` field,
then the worker's `done` with `{ok: true, artifacts: [...]}` — and all
envelopes go to that job's channel.  A subscriber that stops at the
first `done` event, as the SSE bridge does, breaks there: the last
frame it yields is the artifact-less `{ok: true}` payload, and no frame
it ever yields carries an `artifacts` field, so it never receives the
artifacts list. -/
theorem c6_double_done (cfg : Settings) (jobId tenant : String)
    (project : ProjectDict) (cancelAt : Nat → Bool)
    (h : ∀ k, cancelAt k = false) :
    ((worker_run jobId project tenant cfg cancelAt).1.map (·.2)).filter
        (fun m => m.event == "done")
      = [JobEmitter.done [],
         ⟨"done", jobj [("ok", jbool true),
                        ("artifacts",
                         jarr (run_job jobId project tenant cfg
                            cancelAt).artifacts)]⟩]
    ∧ jGet (JobEmitter.done []).data "artifacts" = none
    ∧ (worker_run jobId project tenant cfg cancelAt).1.all
        (fun p => p.1 == jobChannel jobId) = true
    ∧ (sse_event_gen ((worker_run jobId project tenant cfg cancelAt).1.map
        (fun p => Poll.message p.2))).exit = SSEExit.doneBreak
    ∧ (sse_event_gen ((worker_run jobId project tenant cfg cancelAt).1.map
        (fun p => Poll.message p.2))).frames.getLast?
        = some (.dataLine (jobj [("ok", jbool true)]))
    ∧ ((sse_event_gen ((worker_run jobId project tenant cfg cancelAt).1.map
        (fun p => Poll.message p.2))).frames.all frameLacksArtifactsKey)
        = true := by
  have hrun := run_job_nocancel jobId project tenant cfg cancelAt h
  have hprops : ∀ m ∈ ((⟨"log", jobj [("level", jstr "info"),
            ("msg", jstr "Job started")]⟩ : EventMsg)
        :: ([JobEmitter.progress 15 "Planning outline",
             JobEmitter.log "info" "Outline proposed.",
             JobEmitter.progress 55 "Writing content",
             JobEmitter.progress 75 "Editing & QA",
             JobEmitter.progress 90 "Exporting"]
            ++ (exportSteps jobId (artPath cfg tenant jobId)
                  (baseOf project.intent.editorialPreset)
                  project.intent.outputs).map (fun s => JobEmitter.artifact s.1)
            ++ [JobEmitter.progress 100 "Done"])),
      m.event ≠ "done" ∧ jGet m.data "artifacts" = none := by
    intro m hm
    simp only [List.mem_cons, List.mem_append, List.mem_map,
      List.mem_singleton, List.not_mem_nil, or_false] at hm
    rcases hm with rfl | hm
    · exact ⟨by simp, rfl⟩
    rcases hm with ((rfl | rfl | rfl | rfl | rfl) | ⟨s, hs, rfl⟩) | rfl
    · exact ⟨by simp [JobEmitter.progress], rfl⟩
    · exact ⟨by simp [JobEmitter.log], rfl⟩
    · exact ⟨by simp [JobEmitter.progress], rfl⟩
    · exact ⟨by simp [JobEmitter.progress], rfl⟩
    · exact ⟨by simp [JobEmitter.progress], rfl⟩
    · exact ⟨by simp [JobEmitter.artifact],
        exportSteps_no_artifacts_key _ _ _ _ s hs⟩
    · exact ⟨by simp [JobEmitter.progress], rfl⟩
  have hpolls : (worker_run jobId project tenant cfg cancelAt).1.map
      (fun p => Poll.message p.2)
      = ((⟨"log", jobj [("level", jstr "info"), ("msg", jstr "Job started")]⟩ :
            EventMsg)
          :: ([JobEmitter.progress 15 "Planning outline",
               JobEmitter.log "info" "Outline proposed.",
               JobEmitter.progress 55 "Writing content",
               JobEmitter.progress 75 "Editing & QA",
               JobEmitter.progress 90 "Exporting"]
              ++ (exportSteps jobId (artPath cfg tenant jobId)
                    (baseOf project.intent.editorialPreset)
                    project.intent.outputs).map (fun s => JobEmitter.artifact s.1)
              ++ [JobEmitter.progress 100 "Done"])).map Poll.message
        ++ (Poll.message (JobEmitter.done [])
            :: [Poll.message ⟨"done",
                  jobj [("ok", jbool true),
                        ("artifacts",
                         jarr ((exportSteps jobId (artPath cfg tenant jobId)
                            (baseOf project.intent.editorialPreset)
                            project.intent.outputs).map (·.1)))]⟩]) := by
    rw [worker_run, hrun]
    simp [run_job_worker, List.map_append, List.map_map, Function.comp]
  have hgen := sse_run_to_first_done _ (JobEmitter.done [])
    [Poll.message ⟨"done",
        jobj [("ok", jbool true),
              ("artifacts",
               jarr ((exportSteps jobId (artPath cfg tenant jobId)
                  (baseOf project.intent.editorialPreset)
                  project.intent.outputs).map (·.1)))]⟩]
    (fun m hm => (hprops m hm).1) rfl
  refine ⟨?_, rfl, ?_, ?_, ?_, ?_⟩
  · rw [worker_run, hrun]
    simp [run_job_worker, List.filter_append, List.filter_cons,
          JobEmitter.progress, JobEmitter.log, JobEmitter.done,
          List.map_map, Function.comp]
    intro a x x1 x2 _ hart
    subst hart
    simp [JobEmitter.artifact]
  · rw [worker_run, hrun]
    simp [run_job_worker, List.all_cons, List.all_append, List.all_map]
    intro a b x x1 x2 _ ha _
    exact ha.symm
  · rw [hpolls, hgen]
  · rw [hpolls, hgen]
    exact getLast?_append_pair _ _ _
  · rw [hpolls, hgen]
    rw [List.all_eq_true]
    intro y hy
    rcases List.mem_append.mp hy with hy1 | hy2
    · rcases List.mem_cons.mp hy1 with rfl | hyf
      · rfl
      · rcases List.mem_flatMap.mp hyf with ⟨m, hm, hy3⟩
        rcases List.mem_cons.mp hy3 with rfl | hy4
        · rfl
        · rw [List.mem_singleton] at hy4
          subst hy4
          simp [frameLacksArtifactsKey, (hprops m hm).2]
    · rcases List.mem_cons.mp hy2 with rfl | hy5
      · rfl
      · rw [List.mem_singleton] at hy5
        subst hy5
        rfl

/-- Witness for C6: the sample project run with no cancellation shows the
two `done` envelopes, the pipeline's first. -/
theorem c6_double_done_witness :
    ((worker_run "j1" sampleProjectDict "t1" ⟨"/data/jobs"⟩
        (fun _ => false)).1.map (·.2)).filter (fun m => m.event == "done")
      = [JobEmitter.done [],
         ⟨"done", jobj [("ok", jbool true),
                        ("artifacts",
                         jarr (run_job "j1" sampleProjectDict "t1"
                            ⟨"/data/jobs"⟩ (fun _ => false)).artifacts)]⟩] :=
  (c6_double_done ⟨"/data/jobs"⟩ "j1" "t1" sampleProjectDict (fun _ => false)
      (fun _ => rfl)).1
